import Mathlib

/-!
Verification of the Govee smart-device client (`govee_api`): a shallow
embedding of the connection-status state machine, the broker/radio command
dispatcher, the radio frame codec, the inbound MQTT push handling and the
broker-session reset, together with theorems settling the specification's
claims about them.

Python's `enum.Flag` bitmask `ConnectionStatus` is embedded as a `Nat`
bitmask (`OFFLINE = 1`, `IOT_CONNECTED = 2`, `BT_CONNECTED = 4`); Python's
`~flag` complements within the three defined bits.
-/

namespace Govee

namespace ConnectionStatus

/-- `ConnectionStatus.OFFLINE` (`enum.auto()` gives bit 0). -/
def OFFLINE : Nat := 1

/-- `ConnectionStatus.IOT_CONNECTED` (bit 1). -/
def IOT_CONNECTED : Nat := 2

/-- `ConnectionStatus.BT_CONNECTED` (bit 2). -/
def BT_CONNECTED : Nat := 4

/-- The universe of defined flag bits; Python's `~` for an `enum.Flag`
complements within this universe. -/
def universeBits : Nat := 7

/-- Python `~status` for the `ConnectionStatus` flag class. -/
def compl (status : Nat) : Nat := universeBits ^^^ (status &&& universeBits)

end ConnectionStatus

/-- The three single flags of `ConnectionStatus` (the only values the
repository ever passes to the add/remove operations). -/
def validFlag (f : Nat) : Prop :=
  f = ConnectionStatus.OFFLINE ∨ f = ConnectionStatus.IOT_CONNECTED ∨
    f = ConnectionStatus.BT_CONNECTED

instance (f : Nat) : Decidable (validFlag f) := by
  unfold validFlag; infer_instance

/-- `GoveeDevice._add_connection_status`: returns the new stored
`__connection_status` together with the returned `status_changed` boolean.
Mirrors the source: `status_changed` is first set to
`connection_status & status != status`; the flag is OR-ed in; and when the
added flag is not `OFFLINE` the `OFFLINE` bit is stripped and
`status_changed` is overwritten with `True`. -/
def addConnectionStatus (cur status : Nat) : Nat × Bool :=
  let statusChanged := decide (cur &&& status ≠ status)
  let cur1 := cur ||| status
  if status ≠ ConnectionStatus.OFFLINE then
    (cur1 &&& ConnectionStatus.compl ConnectionStatus.OFFLINE, true)
  else
    (cur1, statusChanged)

/-- `GoveeDevice._remove_connection_status`: returns the new stored
`__connection_status` together with the returned `status_changed` boolean.
Mirrors the source: `status_changed` is first `connection_status & status ==
status`; the flag is masked out; and when the result is falsy (empty flag
set) it is replaced by `OFFLINE` and `status_changed` is overwritten with
`True`. -/
def removeConnectionStatus (cur status : Nat) : Nat × Bool :=
  let statusChanged := decide (cur &&& status = status)
  let cur1 := cur &&& ConnectionStatus.compl status
  if cur1 = 0 then
    (ConnectionStatus.OFFLINE, true)
  else
    (cur1, statusChanged)

/-- `IotConnectionStatus` enum from `device.py`. -/
inductive IotConnectionStatus
  | UNKNOWN
  | ONLINE
  | OFFLINE
  | NO_IOT
deriving DecidableEq

/-- The `__connection_status` a `GoveeDevice.__init__` stores:
`IOT_CONNECTED` when constructed with `IotConnectionStatus.ONLINE`,
`OFFLINE` otherwise. -/
def initConnectionStatus (iotConnected : IotConnectionStatus) : Nat :=
  if iotConnected = IotConnectionStatus.ONLINE then
    ConnectionStatus.IOT_CONNECTED
  else
    ConnectionStatus.OFFLINE

/-- The `__iot_device` attribute a `GoveeDevice.__init__` stores. -/
def initIotDevice (iotConnected : IotConnectionStatus) : Bool :=
  decide (iotConnected ≠ IotConnectionStatus.NO_IOT)

/-- One mutation of a device's connection status, as performed by the
repository (always with one of the three named flags). -/
inductive ConnOp
  | addFlag (f : Nat)
  | removeFlag (f : Nat)
deriving DecidableEq

/-- The flag an operation carries. -/
def ConnOp.flag : ConnOp → Nat
  | .addFlag f => f
  | .removeFlag f => f

/-- Applying one add/remove operation to a stored status. -/
def applyConnOp (cur : Nat) : ConnOp → Nat
  | .addFlag f => (addConnectionStatus cur f).1
  | .removeFlag f => (removeConnectionStatus cur f).1

/-- A stored connection status is a nonempty subset of the three flag
bits. -/
def validStatus (s : Nat) : Prop := s ≠ 0 ∧ s < 8

instance (s : Nat) : Decidable (validStatus s) := by
  unfold validStatus; infer_instance

theorem applyConnOp_preserves (cur : Nat) (op : ConnOp) (h : cur < 8)
    (hf : validFlag op.flag) :
    applyConnOp cur op ≠ 0 ∧ applyConnOp cur op < 8 := by
  rcases op with f | f <;>
    rcases hf with rfl | rfl | rfl <;>
    interval_cases cur <;> decide

theorem foldl_applyConnOp_valid (ops : List ConnOp) (s : Nat)
    (hs : s ≠ 0) (hs8 : s < 8) (hops : ∀ op ∈ ops, validFlag op.flag) :
    ops.foldl applyConnOp s ≠ 0 ∧ ops.foldl applyConnOp s < 8 := by
  induction ops generalizing s with
  | nil => exact ⟨hs, hs8⟩
  | cons op rest ih =>
    have hop : validFlag op.flag := hops op (List.mem_cons_self op rest)
    have hstep := applyConnOp_preserves s op hs8 hop
    exact ih (applyConnOp s op) hstep.1 hstep.2
      (fun o ho => hops o (List.mem_cons_of_mem op ho))

/-- C1 counterexample: adding `IOT_CONNECTED` to a status that already
holds exactly `IOT_CONNECTED` leaves the observable status unchanged yet
`_add_connection_status` returns `True`; likewise removing `OFFLINE` from a
status that is exactly `OFFLINE` leaves it unchanged yet
`_remove_connection_status` returns `True`.  The claim requires `False` in
both situations. -/
theorem C1_counterexample :
    (addConnectionStatus ConnectionStatus.IOT_CONNECTED
        ConnectionStatus.IOT_CONNECTED).1 = ConnectionStatus.IOT_CONNECTED ∧
    (addConnectionStatus ConnectionStatus.IOT_CONNECTED
        ConnectionStatus.IOT_CONNECTED).2 = true ∧
    (removeConnectionStatus ConnectionStatus.OFFLINE
        ConnectionStatus.OFFLINE).1 = ConnectionStatus.OFFLINE ∧
    (removeConnectionStatus ConnectionStatus.OFFLINE
        ConnectionStatus.OFFLINE).2 = true := by
  decide

/-- C1 (amended): the returned boolean is sound in one direction only — a
`false` return guarantees the observable status is unchanged, and every
observable change returns `true` — but `true` can be returned without a
change: `_add_connection_status` returns `true` for every non-`OFFLINE`
flag even when it was already set, and `_remove_connection_status` returns
`true` exactly when the flag was fully set before the call or the removal
emptied the flag set (which forces the `OFFLINE` marker, possibly leaving
an already-`OFFLINE` status unchanged). -/
theorem C1_amended (cur f : Nat) (hcur : cur < 8) (hf : validFlag f) :
    ((addConnectionStatus cur f).2 = false →
      (addConnectionStatus cur f).1 = cur) ∧
    ((removeConnectionStatus cur f).2 = false →
      (removeConnectionStatus cur f).1 = cur) ∧
    ((addConnectionStatus cur f).1 ≠ cur →
      (addConnectionStatus cur f).2 = true) ∧
    ((removeConnectionStatus cur f).1 ≠ cur →
      (removeConnectionStatus cur f).2 = true) ∧
    ((addConnectionStatus cur f).2 = true ↔
      (f ≠ ConnectionStatus.OFFLINE ∨ cur &&& f ≠ f)) ∧
    ((removeConnectionStatus cur f).2 = true ↔
      (cur &&& f = f ∨ cur &&& ConnectionStatus.compl f = 0)) := by
  rcases hf with rfl | rfl | rfl <;> interval_cases cur <;> decide

/-- C1 amended witness at `cur = IOT_CONNECTED`, `f = IOT_CONNECTED`. -/
theorem C1_amended_witness :
    ((addConnectionStatus 2 2).2 = false → (addConnectionStatus 2 2).1 = 2) ∧
    ((removeConnectionStatus 2 2).2 = false →
      (removeConnectionStatus 2 2).1 = 2) ∧
    ((addConnectionStatus 2 2).1 ≠ 2 → (addConnectionStatus 2 2).2 = true) ∧
    ((removeConnectionStatus 2 2).1 ≠ 2 →
      (removeConnectionStatus 2 2).2 = true) ∧
    ((addConnectionStatus 2 2).2 = true ↔
      ((2 : Nat) ≠ ConnectionStatus.OFFLINE ∨ (2 : Nat) &&& 2 ≠ 2)) ∧
    ((removeConnectionStatus 2 2).2 = true ↔
      ((2 : Nat) &&& 2 = 2 ∨ (2 : Nat) &&& ConnectionStatus.compl 2 = 0)) :=
  C1_amended 2 2 (by decide) (by decide)

/-- C4: a freshly constructed device stores either `IOT_CONNECTED` or
`OFFLINE`; after any sequence of add/remove operations with the
repository's flags the stored status is never the empty flag set; and
removing a flag from a status whose only set bits lie inside that flag
(removing the last set flag) yields exactly the `OFFLINE` marker. -/
theorem C4_status_never_empty (iot : IotConnectionStatus)
    (ops : List ConnOp) (hops : ∀ op ∈ ops, validFlag op.flag) :
    (initConnectionStatus iot = ConnectionStatus.IOT_CONNECTED ∨
      initConnectionStatus iot = ConnectionStatus.OFFLINE) ∧
    ops.foldl applyConnOp (initConnectionStatus iot) ≠ 0 ∧
    (∀ cur g, cur &&& ConnectionStatus.compl g = 0 →
      (removeConnectionStatus cur g).1 = ConnectionStatus.OFFLINE) := by
  refine ⟨?_, ?_, ?_⟩
  · cases iot <;> simp [initConnectionStatus]
  · have hinit : initConnectionStatus iot ≠ 0 ∧ initConnectionStatus iot < 8 := by
      cases iot <;> decide
    exact (foldl_applyConnOp_valid ops _ hinit.1 hinit.2 hops).1
  · intro cur g hlast
    simp [removeConnectionStatus, hlast]

/-- C4 witness: a device constructed online, with its `IOT_CONNECTED` flag
then removed and `BT_CONNECTED` added and removed again. -/
theorem C4_status_never_empty_witness :
    (initConnectionStatus IotConnectionStatus.ONLINE =
        ConnectionStatus.IOT_CONNECTED ∨
      initConnectionStatus IotConnectionStatus.ONLINE =
        ConnectionStatus.OFFLINE) ∧
    ([ConnOp.removeFlag ConnectionStatus.IOT_CONNECTED,
      ConnOp.addFlag ConnectionStatus.BT_CONNECTED,
      ConnOp.removeFlag ConnectionStatus.BT_CONNECTED].foldl applyConnOp
        (initConnectionStatus IotConnectionStatus.ONLINE) ≠ 0) ∧
    (∀ cur g, cur &&& ConnectionStatus.compl g = 0 →
      (removeConnectionStatus cur g).1 = ConnectionStatus.OFFLINE) :=
  C4_status_never_empty IotConnectionStatus.ONLINE
    [ConnOp.removeFlag ConnectionStatus.IOT_CONNECTED,
     ConnOp.addFlag ConnectionStatus.BT_CONNECTED,
     ConnOp.removeFlag ConnectionStatus.BT_CONNECTED]
    (by decide)

/-! ## Commands (`command.py`) -/

/-- The logical commands of `command.py`: `StatusCommand`, `TurnCommand`,
`BrightnessCommand`, `ColorCommand`, `ColorTemperatureCommand`. -/
inductive Command
  | status
  | turn (val : Bool)
  | brightness (val : Nat)
  | color (red green blue : Nat)
  | colorTemperature (kelvin red green blue : Nat)
deriving DecidableEq

/-- `isinstance(command, cmd.StatusCommand)`. -/
def isStatusCommand : Command → Bool
  | .status => true
  | _ => false

/-- `get_bt_payload` of each command class: `None` for `StatusCommand`
(the radio link has no status request), otherwise an `(opcode, data)`
pair. -/
def Command.getBtPayload : Command → Option (Nat × List Nat)
  | .status => none
  | .turn val => some (0x01, [if val then 0x01 else 0x00])
  | .brightness val => some (0x04, [val &&& 0xFF])
  | .color red green blue =>
      some (0x05, [0x02, 0xff, 0xff, 0xff, 0x01, red, green, blue])
  | .colorTemperature _ red green blue =>
      some (0x05, [0x02, 0xff, 0xff, 0xff, 0x01, red, green, blue])

/-! ## Power commands (`ToggleableGoveeDevice`) -/

namespace ToggleableGoveeDevice

/-- `ToggleableGoveeDevice.__turn`: publishes a `TurnCommand` only when the
requested value differs from the cached `__on` (which is `None`, `True` or
`False`, embedded as `Option Bool`); it does not itself update `__on`. -/
def turn (cachedOn : Option Bool) (val : Bool) : Option Command :=
  if cachedOn ≠ some val then some (Command.turn val) else none

/-- Python's `not self.on`: `not None` is `True`. -/
def pyNotOn (cachedOn : Option Bool) : Bool :=
  match cachedOn with
  | none => true
  | some b => !b

/-- `ToggleableGoveeDevice.toggle`: `self.__turn(not self.on)`. -/
def toggle (cachedOn : Option Bool) : Option Command :=
  turn cachedOn (pyNotOn cachedOn)

/-- The commands published by two consecutive `__turn` calls with the same
requested value; the cached `__on` is unchanged between them because
`__turn` never assigns it. -/
def turnTwice (cachedOn : Option Bool) (val : Bool) : List Command :=
  (turn cachedOn val).toList ++ (turn cachedOn val).toList

end ToggleableGoveeDevice

/-- C9 counterexample: for a device whose cached power state already equals
the requested value (`__on = True`, request `True`), issuing the power
command twice produces zero send attempts — not the one send attempt the
claim states (the first call is already a no-op, not only the second). -/
theorem C9_counterexample :
    ToggleableGoveeDevice.turnTwice (some true) true = [] ∧
    (ToggleableGoveeDevice.turnTwice (some true) true).length ≠ 1 := by
  decide

/-- C9 (amended): issuing the same power command twice for a device whose
cached power state already equals the requested value produces no send
attempt at all — each of the two calls is a no-op (no command is
published). -/
theorem C9_amended (cachedOn : Option Bool) (val : Bool) (h : cachedOn = some val) :
    ToggleableGoveeDevice.turn cachedOn val = none ∧
    ToggleableGoveeDevice.turnTwice cachedOn val = [] := by
  subst h
  simp [ToggleableGoveeDevice.turn, ToggleableGoveeDevice.turnTwice]

/-- C9 amended witness at `__on = some false`, requested value `false`. -/
theorem C9_amended_witness :
    ToggleableGoveeDevice.turn (some false) false = none ∧
    ToggleableGoveeDevice.turnTwice (some false) false = [] :=
  C9_amended (some false) false rfl

/-- C10: for a device whose cached power state is unknown (`__on is None`),
`toggle()` computes `not None = True` and, since `True != None`, publishes
a `TurnCommand` with value `True` — unknown is treated as off. -/
theorem C10_toggle_unknown :
    ToggleableGoveeDevice.toggle none = some (Command.turn true) := by
  decide

/-! ## Command dispatch (`Govee._publish_command`) -/

/-- The two transports a dispatch can attempt. -/
inductive Transport
  | iot
  | bt
deriving DecidableEq

/-- `Govee._publish_command`, as the ordered list of transports it
attempts.  `iotDevice` is `device._iot_device`, `connStatus` the device's
stored `connection_status`, `iotSendOk` the boolean
`__publish_iot_payload` would return (publish succeeded).  The broker is
attempted when `device._iot_device and (IOT_CONNECTED set or the command
is a StatusCommand)`; `iot_sent` is that attempt's result (or `False` when
no attempt was made), and Bluetooth is attempted exactly when `not
iot_sent`. -/
def publishCommandTrace (iotDevice : Bool) (connStatus : Nat)
    (command : Command) (iotSendOk : Bool) : List Transport :=
  let iotAttempt := iotDevice &&
    (decide (connStatus &&& ConnectionStatus.IOT_CONNECTED =
        ConnectionStatus.IOT_CONNECTED) || isStatusCommand command)
  let iotSent := iotAttempt && iotSendOk
  (if iotAttempt then [Transport.iot] else []) ++
    (if iotSent then [] else [Transport.bt])

/-- C3: the broker transport is attempted iff the device declares broker
capability and either its `IOT_CONNECTED` flag is set or the command is a
status request; when attempted at all the broker comes first; and the
radio transport is attempted exactly when the broker attempt was not made
or returned failure. -/
theorem C3_transport_choice (iotDevice : Bool) (connStatus : Nat)
    (command : Command) (iotSendOk : Bool) :
    (Transport.iot ∈ publishCommandTrace iotDevice connStatus command iotSendOk ↔
      (iotDevice = true ∧
        (connStatus &&& ConnectionStatus.IOT_CONNECTED =
            ConnectionStatus.IOT_CONNECTED ∨ isStatusCommand command = true))) ∧
    ((publishCommandTrace iotDevice connStatus command iotSendOk).head? =
        some Transport.bt →
      Transport.iot ∉ publishCommandTrace iotDevice connStatus command iotSendOk) ∧
    (Transport.bt ∈ publishCommandTrace iotDevice connStatus command iotSendOk ↔
      (Transport.iot ∉ publishCommandTrace iotDevice connStatus command iotSendOk ∨
        iotSendOk = false)) := by
  by_cases hconn : connStatus &&& ConnectionStatus.IOT_CONNECTED =
      ConnectionStatus.IOT_CONNECTED <;>
    cases iotDevice <;>
    cases hst : isStatusCommand command <;>
    cases iotSendOk <;>
    simp [publishCommandTrace, hconn, hst]

/-- C3 witness: a broker-capable device with `IOT_CONNECTED` clear and a
status-request command whose broker publish succeeds. -/
theorem C3_transport_choice_witness :
    (Transport.iot ∈ publishCommandTrace true ConnectionStatus.OFFLINE
        Command.status true ↔
      (true = true ∧
        (ConnectionStatus.OFFLINE &&& ConnectionStatus.IOT_CONNECTED =
            ConnectionStatus.IOT_CONNECTED ∨
          isStatusCommand Command.status = true))) ∧
    ((publishCommandTrace true ConnectionStatus.OFFLINE Command.status
          true).head? = some Transport.bt →
      Transport.iot ∉ publishCommandTrace true ConnectionStatus.OFFLINE
        Command.status true) ∧
    (Transport.bt ∈ publishCommandTrace true ConnectionStatus.OFFLINE
        Command.status true ↔
      (Transport.iot ∉ publishCommandTrace true ConnectionStatus.OFFLINE
          Command.status true ∨ true = false)) :=
  C3_transport_choice true ConnectionStatus.OFFLINE Command.status true

/-! ## Radio frame encoding (`Govee.__publish_bt_payload`, packet part) -/

/-- The 20-byte Bluetooth frame `__publish_bt_payload` constructs from an
opcode and payload data: `0x33`, the opcode, the payload, zero padding up
to 19 bytes, then the XOR checksum of those 19 bytes masked with
`0xFF`. -/
def buildBtPacket (opcode : Nat) (data : List Nat) : List Nat :=
  let packet := 0x33 :: opcode :: data
  let packet2 := packet ++ List.replicate (19 - packet.length) 0
  let checksum := (packet2.foldl (fun a b => a ^^^ b) 0) &&& 0xFF
  packet2 ++ [checksum]

theorem foldl_xor_lt : ∀ (l : List Nat) (acc : Nat), acc < 256 →
    (∀ b ∈ l, b < 256) → l.foldl (fun a b => a ^^^ b) acc < 256
  | [], _, hacc, _ => hacc
  | x :: xs, acc, hacc, hl => by
    have hx : x < 256 := hl x (List.mem_cons_self x xs)
    have h2 : acc ^^^ x < 2 ^ 8 :=
      Nat.xor_lt_two_pow (by norm_num [hacc]) (by norm_num [hx])
    exact foldl_xor_lt xs (acc ^^^ x) (by norm_num at h2; exact h2)
      (fun b hb => hl b (List.mem_cons_of_mem x hb))

theorem buildBtPacket_eq (opcode : Nat) (data : List Nat)
    (h : data.length ≤ 17) :
    buildBtPacket opcode data =
      (0x33 :: opcode :: (data ++ List.replicate (17 - data.length) 0)) ++
        [((0x33 :: opcode ::
            (data ++ List.replicate (17 - data.length) 0)).foldl
              (fun a b => a ^^^ b) 0) &&& 0xFF] := by
  have hlen : 19 - (0x33 :: opcode :: data).length = 17 - data.length := by
    simp only [List.length_cons]
    omega
  simp only [buildBtPacket, hlen, List.cons_append, List.append_assoc]

/-- C5: for any opcode byte and payload of at most 17 bytes, the frame is
exactly 20 bytes, byte 0 is `0x33`, byte 1 the opcode, the payload sits at
bytes 2 onward, bytes up to 18 are zero padding, and byte 19 is the XOR of
bytes 0 through 18.  The encoding is a pure function of the opcode and
payload, hence deterministic. -/
theorem C5_radio_frame (opcode : Nat) (data : List Nat)
    (hlen : data.length ≤ 17) (hop : opcode < 256)
    (hdata : ∀ b ∈ data, b < 256) :
    (buildBtPacket opcode data).length = 20 ∧
    (buildBtPacket opcode data)[0]? = some 0x33 ∧
    (buildBtPacket opcode data)[1]? = some opcode ∧
    (∀ i, i < data.length → (buildBtPacket opcode data)[2 + i]? = data[i]?) ∧
    (∀ i, 2 + data.length ≤ i → i < 19 →
      (buildBtPacket opcode data)[i]? = some 0) ∧
    (buildBtPacket opcode data)[19]? =
      some (((buildBtPacket opcode data).take 19).foldl
        (fun a b => a ^^^ b) 0) := by
  have hbody : ∀ b ∈ 0x33 :: opcode ::
      (data ++ List.replicate (17 - data.length) 0), b < 256 := by
    intro b hb
    rcases hb with _ | ⟨_, hb⟩
    · norm_num
    rcases hb with _ | ⟨_, hb⟩
    · exact hop
    rcases List.mem_append.mp hb with hb | hb
    · exact hdata b hb
    · have := List.eq_of_mem_replicate hb
      omega
  have hfold : ((0x33 : Nat) :: opcode ::
        (data ++ List.replicate (17 - data.length) 0)).foldl
          (fun a b => a ^^^ b) 0 < 256 :=
    foldl_xor_lt _ 0 (by norm_num) hbody
  have hmask : (((0x33 : Nat) :: opcode ::
        (data ++ List.replicate (17 - data.length) 0)).foldl
          (fun a b => a ^^^ b) 0) &&& 0xFF =
      ((0x33 : Nat) :: opcode ::
        (data ++ List.replicate (17 - data.length) 0)).foldl
          (fun a b => a ^^^ b) 0 := by
    have h8 : ((0x33 : Nat) :: opcode ::
        (data ++ List.replicate (17 - data.length) 0)).foldl
          (fun a b => a ^^^ b) 0 < 2 ^ 8 :=
      lt_of_lt_of_le hfold (by norm_num)
    have h255 := Nat.and_pow_two_sub_one_of_lt_two_pow h8
    have e : (2 : Nat) ^ 8 - 1 = 0xFF := by norm_num
    rw [e] at h255
    exact h255
  have hblen : ((0x33 : Nat) :: opcode ::
      (data ++ List.replicate (17 - data.length) 0)).length = 19 := by
    simp only [List.length_cons, List.length_append, List.length_replicate]
    omega
  rw [buildBtPacket_eq opcode data hlen]
  refine ⟨?_, ?_, ?_, ?_, ?_, ?_⟩
  · simp only [List.length_append, hblen, List.length_cons,
      List.length_nil]
  · rw [List.getElem?_append_left (by simp only [hblen]; omega)]
    rfl
  · rw [List.getElem?_append_left (by simp only [hblen]; omega)]
    simp only [List.getElem?_cons_succ, List.getElem?_cons_zero]
  · intro i hi
    rw [List.getElem?_append_left (by simp only [hblen]; omega)]
    simp only [Nat.add_comm 2 i, List.getElem?_cons_succ]
    rw [List.getElem?_append_left hi]
  · intro i h2i hi19
    rw [List.getElem?_append_left (by simp only [hblen]; omega)]
    obtain ⟨j, rfl⟩ : ∃ j, i = 2 + j := ⟨i - 2, by omega⟩
    simp only [Nat.add_comm 2 j, List.getElem?_cons_succ]
    rw [List.getElem?_append_right (by omega)]
    rw [List.getElem?_replicate]
    rw [if_pos (by omega)]
  · rw [List.getElem?_append_right (by omega : ((0x33 : Nat) :: opcode ::
        (data ++ List.replicate (17 - data.length) 0)).length ≤ 19)]
    rw [List.take_left' hblen]
    simp only [hblen, Nat.sub_self, List.getElem?_cons_zero, hmask]

/-- C5 witness: the power-on command frame (opcode `0x01`, payload
`[0x01]`). -/
theorem C5_radio_frame_witness :
    (buildBtPacket 1 [1]).length = 20 ∧
    (buildBtPacket 1 [1])[0]? = some 0x33 ∧
    (buildBtPacket 1 [1])[1]? = some 1 ∧
    (∀ i, i < [(1 : Nat)].length → (buildBtPacket 1 [1])[2 + i]? = [(1 : Nat)][i]?) ∧
    (∀ i, 2 + [(1 : Nat)].length ≤ i → i < 19 →
      (buildBtPacket 1 [1])[i]? = some 0) ∧
    (buildBtPacket 1 [1])[19]? =
      some (((buildBtPacket 1 [1]).take 19).foldl (fun a b => a ^^^ b) 0) :=
  C5_radio_frame 1 [1] (by decide) (by decide) (by decide)

/-! ## Radio dispatch validation (`Govee.__publish_bt_payload`, entry) -/

/-- The observable outcome of `Govee.__publish_bt_payload` up to the point
where a transport interaction would begin.  The method first bails out
silently when Bluetooth cannot be initialized (`btUnavailable`); then calls
`command.get_bt_payload()` and returns silently when it is `None`
(`noPayload`); then raises `GoveeException` when the payload data exceeds
17 bytes (`payloadTooLong`); only otherwise does it proceed to the
connection pool, frame construction and the characteristic write
(`proceed`, carrying the frame that will be written). -/
inductive BtOutcome
  | btUnavailable
  | noPayload
  | payloadTooLong (opcode : Nat) (data : List Nat)
  | proceed (packet : List Nat)
deriving DecidableEq

/-- `True` exactly for the outcome in which `__publish_bt_payload` raises a
`GoveeException` to its caller. -/
def BtOutcome.raisesGoveeException : BtOutcome → Bool
  | .payloadTooLong _ _ => true
  | _ => false

/-- `True` exactly for the outcome that reaches the Bluetooth transport
(connect and/or characteristic write). -/
def BtOutcome.attemptsTransport : BtOutcome → Bool
  | .proceed _ => true
  | _ => false

/-- `Govee.__publish_bt_payload` on the result of `get_bt_payload`;
`btOk` is the result of `__init_bluetooth_if_required`. -/
def publishBtPayload (btOk : Bool) (payload : Option (Nat × List Nat)) :
    BtOutcome :=
  if btOk = false then .btUnavailable
  else
    match payload with
    | none => .noPayload
    | some (opcode, data) =>
      if data.length > 17 then .payloadTooLong opcode data
      else .proceed (buildBtPacket opcode data)

/-- C6 counterexample: a status-request dispatched over the radio (its
`get_bt_payload()` is `None`, i.e. the command kind has no radio encoding)
does not raise any validation error — `__publish_bt_payload` returns
silently — contradicting the claim that such a dispatch fails with a
validation error raised to the caller.  (No transport send is attempted,
which is the half of the claim that does hold.) -/
theorem C6_counterexample :
    publishBtPayload true Command.status.getBtPayload = BtOutcome.noPayload ∧
    (publishBtPayload true Command.status.getBtPayload).raisesGoveeException
      = false ∧
    (publishBtPayload true Command.status.getBtPayload).attemptsTransport
      = false := by
  decide

/-- C6 (amended): with Bluetooth initialized, a radio dispatch whose
payload exceeds 17 bytes raises a `GoveeException` synchronously before
any connect or write; a dispatch of a command kind with no radio encoding
(payload `None`) returns silently with no error and no transport attempt;
in neither case is any transport send attempted. -/
theorem C6_amended (btOk : Bool) (payload : Option (Nat × List Nat)) :
    (∀ opcode data, btOk = true → payload = some (opcode, data) →
      data.length > 17 →
      publishBtPayload btOk payload = BtOutcome.payloadTooLong opcode data ∧
      (publishBtPayload btOk payload).raisesGoveeException = true ∧
      (publishBtPayload btOk payload).attemptsTransport = false) ∧
    (btOk = true → payload = none →
      publishBtPayload btOk payload = BtOutcome.noPayload ∧
      (publishBtPayload btOk payload).raisesGoveeException = false ∧
      (publishBtPayload btOk payload).attemptsTransport = false) := by
  constructor
  · rintro opcode data rfl rfl hlong
    simp [publishBtPayload, if_pos hlong, BtOutcome.raisesGoveeException,
      BtOutcome.attemptsTransport, hlong]
  · rintro rfl rfl
    simp [publishBtPayload, BtOutcome.raisesGoveeException,
      BtOutcome.attemptsTransport]

/-- C6 amended witness: an 18-byte payload and a `None` payload. -/
theorem C6_amended_witness :
    ((∀ opcode data, true = true →
      some (1, List.replicate 18 0) = some (opcode, data) →
      data.length > 17 →
      publishBtPayload true (some (1, List.replicate 18 0)) =
        BtOutcome.payloadTooLong opcode data ∧
      (publishBtPayload true
        (some (1, List.replicate 18 0))).raisesGoveeException = true ∧
      (publishBtPayload true
        (some (1, List.replicate 18 0))).attemptsTransport = false) ∧
    (true = true → some (1, List.replicate 18 0) = none →
      publishBtPayload true (some (1, List.replicate 18 0)) =
        BtOutcome.noPayload ∧
      (publishBtPayload true
        (some (1, List.replicate 18 0))).raisesGoveeException = false ∧
      (publishBtPayload true
        (some (1, List.replicate 18 0))).attemptsTransport = false)) ∧
    ((publishBtPayload true (some (1, List.replicate 18 0))) =
      BtOutcome.payloadTooLong 1 (List.replicate 18 0)) :=
  ⟨C6_amended true (some (1, List.replicate 18 0)),
    ((C6_amended true (some (1, List.replicate 18 0))).1 1
      (List.replicate 18 0) rfl rfl (by decide)).1⟩

/-! ## Inbound broker pushes (`_update_state`, `__mqtt_topic_callback`) -/

/-- A JSON value found under the `connected` key of a push: the broker
sends either a boolean or the string `"true"`/`"false"`. -/
inductive ConnValue
  | jbool (b : Bool)
  | jstr (s : String)
deriving DecidableEq

/-- The truthiness test of `GoveeDevice._update_state`:
`(isinstance(conn, bool) and conn) or conn == 'true'`. -/
def connTruthy : ConnValue → Bool
  | .jbool b => b
  | .jstr s => s == "true"

/-- The `state` object of an inbound broker push, with each key optional
(`none` embeds absence of the key from the JSON object). -/
structure PushState where
  device : Option String
  connected : Option ConnValue
  onOff : Option Int
  brightness : Option Int
  colorTemInKelvin : Option Int
  color : Option (Int × Int × Int)
deriving DecidableEq

/-- `GoveeRgbLight.__fix_color_temperature`: `0` for a falsy (zero) input,
otherwise the input clamped to `[2000, 9000]`. -/
def fixColorTemperature (colorTemperature : Int) : Int :=
  if colorTemperature ≠ 0 then max (min colorTemperature 9000) 2000 else 0

/-- The normalized color triple `colour.Color(rgb = (r/255, g/255, b/255))`
stores. -/
def pushColorToRgb (c : Int × Int × Int) : ℚ × ℚ × ℚ :=
  ((c.1 : ℚ) / 255, (c.2.1 : ℚ) / 255, (c.2.2 : ℚ) / 255)

/-- The mutable state of a `GoveeRgbLight`: the inherited
`__connection_status`, `ToggleableGoveeDevice.__on`,
`GoveeLight.__brightness`, and its own `__color` and
`__color_temperature`. -/
structure GoveeRgbLightState where
  connectionStatus : Nat
  onState : Option Bool
  brightness : Option ℚ
  color : Option (ℚ × ℚ × ℚ)
  colorTemperature : Option Int
deriving DecidableEq

/-- `GoveeRgbLight._update_state` (including the inherited layers, which
run first): reads `state['connected']`, `state['onOff']` and
`state['brightness']` unconditionally — a missing key is a Python
`KeyError`, embedded as `Except.error` naming the key, with the fields
read before the missing one already applied — then clears or sets
`__color_temperature` and `__color` according to key presence. -/
def GoveeRgbLight.updateState (d : GoveeRgbLightState) (st : PushState) :
    Except String GoveeRgbLightState :=
  match st.connected with
  | none => .error "KeyError: connected"
  | some conn =>
    let cs :=
      if connTruthy conn then
        (addConnectionStatus d.connectionStatus
          ConnectionStatus.IOT_CONNECTED).1
      else
        (removeConnectionStatus d.connectionStatus
          ConnectionStatus.IOT_CONNECTED).1
    let d1 : GoveeRgbLightState := { d with connectionStatus := cs }
    match st.onOff with
    | none => .error "KeyError: onOff"
    | some o =>
      let d2 : GoveeRgbLightState := { d1 with onState := some (decide (o = 1)) }
      match st.brightness with
      | none => .error "KeyError: brightness"
      | some b =>
        let d3 : GoveeRgbLightState :=
          { d2 with brightness := some (max (min ((b : ℚ) / 255) 1) 0) }
        let d4 : GoveeRgbLightState :=
          { d3 with colorTemperature := st.colorTemInKelvin.map fixColorTemperature }
        .ok { d4 with color := st.color.map pushColorToRgb }

/-- A device state used in concrete counterexamples. -/
def exampleRgbLight : GoveeRgbLightState :=
  { connectionStatus := ConnectionStatus.OFFLINE
    onState := none
    brightness := none
    color := none
    colorTemperature := none }

/-- A push carrying `connected` and `brightness` but lacking `onOff`. -/
def pushLackingOnOff : PushState :=
  { device := some "AA:BB:CC:DD:EE:FF:11:22"
    connected := some (ConnValue.jstr "true")
    onOff := none
    brightness := some 100
    colorTemInKelvin := none
    color := none }

/-- C2 counterexample: applying a push that lacks the `onOff` key fails
with a `KeyError` instead of leaving the power attribute unchanged — the
update aborts and, the `connected` key having been processed first, the
connection status has already been mutated, contradicting the claim that a
push lacking `onOff` leaves state unchanged and does not fail. -/
theorem C2_counterexample :
    GoveeRgbLight.updateState exampleRgbLight pushLackingOnOff =
      Except.error "KeyError: onOff" ∧
    (∀ d', GoveeRgbLight.updateState exampleRgbLight pushLackingOnOff ≠
      Except.ok d') := by
  constructor
  · rfl
  · intro d' h
    rw [show GoveeRgbLight.updateState exampleRgbLight pushLackingOnOff =
        Except.error "KeyError: onOff" from rfl] at h
    exact Except.noConfusion h

/-- C2 (amended): `connected`, `onOff` and `brightness` are mandatory in a
push — the update succeeds exactly when all three are present, and a push
lacking one of them raises a `KeyError` — while `colorTemInKelvin` and
`color` are optional and are cleared (set to unknown) exactly when
omitted; every other stored field is overwritten from the push, never left
over from before except through the values the push itself supplies. -/
theorem C2_amended (d : GoveeRgbLightState) (st : PushState) :
    ((GoveeRgbLight.updateState d st).isOk = true ↔
      (st.connected.isSome = true ∧ st.onOff.isSome = true ∧
        st.brightness.isSome = true)) ∧
    (∀ d', GoveeRgbLight.updateState d st = Except.ok d' →
      d'.colorTemperature = st.colorTemInKelvin.map fixColorTemperature ∧
      d'.color = st.color.map pushColorToRgb) := by
  obtain ⟨dev, conn, onOff, bri, kelvin, col⟩ := st
  cases conn <;> cases onOff <;> cases bri <;>
    simp [GoveeRgbLight.updateState, Except.isOk, Except.toBool]

/-- C2 amended witness: the example device and a push carrying all three
mandatory keys and no color keys. -/
theorem C2_amended_witness :
    ((GoveeRgbLight.updateState exampleRgbLight
        { device := some "AA:BB:CC:DD:EE:FF:11:22"
          connected := some (ConnValue.jbool true)
          onOff := some 1
          brightness := some 51
          colorTemInKelvin := none
          color := none }).isOk = true ↔
      ((some (ConnValue.jbool true)).isSome = true ∧
        (some (1 : Int)).isSome = true ∧
        (some (51 : Int)).isSome = true)) ∧
    (∀ d', GoveeRgbLight.updateState exampleRgbLight
        { device := some "AA:BB:CC:DD:EE:FF:11:22"
          connected := some (ConnValue.jbool true)
          onOff := some 1
          brightness := some 51
          colorTemInKelvin := none
          color := none } = Except.ok d' →
      d'.colorTemperature =
        (none : Option Int).map fixColorTemperature ∧
      d'.color = (none : Option (Int × Int × Int)).map pushColorToRgb) :=
  C2_amended exampleRgbLight
    { device := some "AA:BB:CC:DD:EE:FF:11:22"
      connected := some (ConnValue.jbool true)
      onOff := some 1
      brightness := some 51
      colorTemInKelvin := none
      color := none }

/-! ## MQTT push resolution (`Govee.__mqtt_topic_callback`) -/

/-- The raw JSON envelope delivered to `__mqtt_topic_callback`; only the
presence and content of the `state` key matter to the control flow. -/
structure MqttEnvelope where
  state : Option PushState
deriving DecidableEq

/-- The control-flow outcome of `__mqtt_topic_callback`: a silent `return`
(`dropped`), a raised Python `KeyError` escaping the callback
(`keyError`), or resolution of the device followed by `_update_state` and
the `on_device_update` event (`applied`). -/
inductive CallbackOutcome
  | dropped
  | keyError (field : String)
  | applied (identifier : String)
deriving DecidableEq

/-- `Govee.__mqtt_topic_callback`: drops envelopes without `state`; reads
`state['device']` unconditionally (a missing key raises `KeyError`); looks
the device up in the cache, refreshing the device list once (`refreshed`
is the cache contents after `__http_update_device_list`) and retrying;
drops the push silently when still unresolved; otherwise applies the state
and fires the update event. -/
def mqttTopicCallback (known refreshed : List String)
    (msg : MqttEnvelope) : CallbackOutcome :=
  match msg.state with
  | none => .dropped
  | some st =>
    match st.device with
    | none => .keyError "device"
    | some identifier =>
      if identifier ∈ known then .applied identifier
      else if identifier ∈ refreshed then .applied identifier
      else .dropped

/-- A push state lacking the `device` key. -/
def pushLackingDevice : PushState :=
  { device := none
    connected := some (ConnValue.jstr "true")
    onOff := some 1
    brightness := some 100
    colorTemInKelvin := none
    color := none }

/-- C7 counterexample: a push whose `state` lacks the required `device`
key is not dropped silently — `state['device']` raises a `KeyError` that
propagates out of the callback — contradicting the claim that no exception
propagates for such pushes. -/
theorem C7_counterexample :
    mqttTopicCallback [] [] { state := some pushLackingDevice } =
      CallbackOutcome.keyError "device" ∧
    mqttTopicCallback [] [] { state := some pushLackingDevice } ≠
      CallbackOutcome.dropped := by
  decide

/-- C7 (amended): an envelope without a `state` object is dropped
silently, and a push whose device is unresolvable even after the one
device-list refresh is dropped silently — no state mutation, no event —
but a push whose `state` lacks the `device` key raises a `KeyError` that
propagates, rather than being dropped. -/
theorem C7_amended (known refreshed : List String) (msg : MqttEnvelope) :
    (msg.state = none → mqttTopicCallback known refreshed msg =
      CallbackOutcome.dropped) ∧
    (∀ st, msg.state = some st → st.device = none →
      mqttTopicCallback known refreshed msg =
        CallbackOutcome.keyError "device") ∧
    (∀ st identifier, msg.state = some st → st.device = some identifier →
      identifier ∉ known → identifier ∉ refreshed →
      mqttTopicCallback known refreshed msg = CallbackOutcome.dropped) := by
  refine ⟨?_, ?_, ?_⟩
  · intro h
    simp [mqttTopicCallback, h]
  · intro st hst hdev
    simp [mqttTopicCallback, hst, hdev]
  · intro st identifier hst hdev hk hr
    simp [mqttTopicCallback, hst, hdev, hk, hr]

/-- C7 amended witness: an empty envelope, the device-less push, and an
unresolvable device identifier against empty caches. -/
theorem C7_amended_witness :
    (({ state := none } : MqttEnvelope).state = none →
      mqttTopicCallback [] [] { state := none } =
        CallbackOutcome.dropped) ∧
    (∀ st, ({ state := none } : MqttEnvelope).state = some st →
      st.device = none →
      mqttTopicCallback [] [] { state := none } =
        CallbackOutcome.keyError "device") ∧
    (∀ st identifier,
      ({ state := none } : MqttEnvelope).state = some st →
      st.device = some identifier →
      identifier ∉ ([] : List String) → identifier ∉ ([] : List String) →
      mqttTopicCallback [] [] { state := none } =
        CallbackOutcome.dropped) :=
  C7_amended [] [] { state := none }

/-! ## Broker session reset (`Govee.__login_if_required`, reconnect path) -/

/-- The externally observable steps of the reconnect branch of
`__login_if_required`, in the order the code performs them. -/
inductive ResetEvent
  | disconnectOld
  | deviceUpdate (index : Nat)
  | connectNew
  | subscribe
deriving DecidableEq

/-- The `for gdev in self.__devices.values()` loop of `__login_if_required`:
removes `IOT_CONNECTED` from each device in order, firing
`on_device_update` (recorded as `deviceUpdate` with the device's position)
whenever `_remove_connection_status` returned `True`; returns the fired
events and the devices' new stored statuses. -/
def clearIotEvents : Nat → List Nat → List ResetEvent × List Nat
  | _, [] => ([], [])
  | i, s :: rest =>
    let r := removeConnectionStatus s ConnectionStatus.IOT_CONNECTED
    let tail := clearIotEvents (i + 1) rest
    ((if r.2 then [ResetEvent.deviceUpdate i] else []) ++ tail.1,
      r.1 :: tail.2)

/-- The reconnect branch of `__login_if_required` as an event trace over
the known devices' stored statuses: disconnect the old MQTT connection,
clear every device's `IOT_CONNECTED` flag (firing update events), then
connect the fresh broker session and subscribe to the account topic. -/
def brokerReset (devices : List Nat) : List ResetEvent × List Nat :=
  (ResetEvent.disconnectOld :: (clearIotEvents 0 devices).1 ++
      [ResetEvent.connectNew, ResetEvent.subscribe],
    (clearIotEvents 0 devices).2)

/-- Spec-side description of the clearing phase, for comparison with
`clearIotEvents`: exactly one update event per device whose
`IOT_CONNECTED` flag was set, in device order. -/
def specClearEvents : Nat → List Nat → List ResetEvent
  | _, [] => []
  | i, s :: rest =>
    (if s &&& ConnectionStatus.IOT_CONNECTED =
        ConnectionStatus.IOT_CONNECTED then
      [ResetEvent.deviceUpdate i]
    else []) ++ specClearEvents (i + 1) rest

theorem removeIot_true_iff (s : Nat) (h0 : s ≠ 0) (h8 : s < 8) :
    (removeConnectionStatus s ConnectionStatus.IOT_CONNECTED).2 = true ↔
      s &&& ConnectionStatus.IOT_CONNECTED =
        ConnectionStatus.IOT_CONNECTED := by
  interval_cases s <;> simp_all <;> decide

theorem removeIot_clears (s : Nat) (h0 : s ≠ 0) (h8 : s < 8) :
    (removeConnectionStatus s ConnectionStatus.IOT_CONNECTED).1 &&&
        ConnectionStatus.IOT_CONNECTED = 0 ∧
      (removeConnectionStatus s ConnectionStatus.IOT_CONNECTED).1 ≠ 0 := by
  interval_cases s <;> simp_all <;> decide

theorem clearIotEvents_spec : ∀ (devices : List Nat) (i : Nat),
    (∀ s ∈ devices, s ≠ 0 ∧ s < 8) →
    (clearIotEvents i devices).1 = specClearEvents i devices ∧
    (clearIotEvents i devices).2 = devices.map
      (fun s => (removeConnectionStatus s ConnectionStatus.IOT_CONNECTED).1)
  | [], _, _ => ⟨rfl, rfl⟩
  | s :: rest, i, hv => by
    have hs := hv s (List.mem_cons_self s rest)
    have ih := clearIotEvents_spec rest (i + 1)
      (fun x hx => hv x (List.mem_cons_of_mem s hx))
    have hbit := removeIot_true_iff s hs.1 hs.2
    by_cases hb : s &&& ConnectionStatus.IOT_CONNECTED =
        ConnectionStatus.IOT_CONNECTED
    · simp [clearIotEvents, specClearEvents, hb, hbit.mpr hb, ih.1, ih.2]
    · have hrf : (removeConnectionStatus s
          ConnectionStatus.IOT_CONNECTED).2 = false := by
        cases hcase : (removeConnectionStatus s
            ConnectionStatus.IOT_CONNECTED).2
        · rfl
        · exact absurd (hbit.mp hcase) hb
      simp [clearIotEvents, specClearEvents, hb, hrf, ih.1, ih.2]

/-- C8 counterexample: resetting the broker session with one device whose
`IOT_CONNECTED` flag is set produces the trace
`[disconnectOld, deviceUpdate 0, connectNew, subscribe]` — the flag is
cleared (and its update event fired) strictly *before* the new broker
session is connected, contradicting the claim that re-establishing the
session precedes clearing the flags. -/
theorem C8_counterexample :
    (brokerReset [ConnectionStatus.IOT_CONNECTED]).1 =
      [ResetEvent.disconnectOld, ResetEvent.deviceUpdate 0,
        ResetEvent.connectNew, ResetEvent.subscribe] ∧
    List.indexOf (ResetEvent.deviceUpdate 0)
        (brokerReset [ConnectionStatus.IOT_CONNECTED]).1 <
      List.indexOf ResetEvent.connectNew
        (brokerReset [ConnectionStatus.IOT_CONNECTED]).1 := by
  decide

/-- C8 (amended): during a broker-session reset the old session is torn
down first, then every known device's `IOT_CONNECTED` flag is cleared —
emitting exactly one update event per device whose flag was set, in device
order — and only after that is the new broker session connected and
subscribed (so new broker sends become possible only once all flags are
cleared); afterwards no device stores the `IOT_CONNECTED` flag and no
stored status is empty. -/
theorem C8_amended (devices : List Nat)
    (hv : ∀ s ∈ devices, s ≠ 0 ∧ s < 8) :
    (brokerReset devices).1 =
      ResetEvent.disconnectOld :: specClearEvents 0 devices ++
        [ResetEvent.connectNew, ResetEvent.subscribe] ∧
    ∀ s ∈ (brokerReset devices).2,
      s &&& ConnectionStatus.IOT_CONNECTED = 0 ∧ s ≠ 0 := by
  have hspec := clearIotEvents_spec devices 0 hv
  constructor
  · simp only [brokerReset, hspec.1]
  · intro s hs
    simp only [brokerReset, hspec.2, List.mem_map] at hs
    obtain ⟨x, hx, rfl⟩ := hs
    exact removeIot_clears x (hv x hx).1 (hv x hx).2

/-- C8 amended witness: three devices — broker-connected,
bluetooth-connected, offline. -/
theorem C8_amended_witness :
    ((brokerReset [ConnectionStatus.IOT_CONNECTED,
        ConnectionStatus.BT_CONNECTED, ConnectionStatus.OFFLINE]).1 =
      ResetEvent.disconnectOld ::
        specClearEvents 0 [ConnectionStatus.IOT_CONNECTED,
          ConnectionStatus.BT_CONNECTED, ConnectionStatus.OFFLINE] ++
        [ResetEvent.connectNew, ResetEvent.subscribe]) ∧
    (∀ s ∈ (brokerReset [ConnectionStatus.IOT_CONNECTED,
        ConnectionStatus.BT_CONNECTED, ConnectionStatus.OFFLINE]).2,
      s &&& ConnectionStatus.IOT_CONNECTED = 0 ∧ s ≠ 0) :=
  C8_amended [ConnectionStatus.IOT_CONNECTED,
    ConnectionStatus.BT_CONNECTED, ConnectionStatus.OFFLINE] (by decide)

end Govee
